import Mathlib

/-!
Verification of the Polymarket-US mean-reversion fade strategy engine.

Shallow embedding of the relevant parts of `trade.py`, `monitor.py` and
`scanner.py`. Machine floats are modelled as exact rationals (`ℚ`); the only
irrational operation in the sources, `statistics.pstdev`'s square root, is
modelled with `Real.sqrt`. Python dicts become association lists or
`String → Option _` maps, `collections.deque(maxlen=n)` becomes a list trimmed
to its last `n` elements on append.
-/

namespace PMUS

/-! ### Configuration constants (trade.py lines 104-178) -/

def TP_PCT : ℚ := 10/100
def SL_PCT : ℚ := 4/100
def TIME_EXIT_SEC_PRIMARY : ℚ := 720
def BREAKEVEN_EXIT_SEC : ℚ := 480
def BREAKEVEN_TOLERANCE : ℚ := 15/1000
def TRAILING_ACTIVATE_PCT : ℚ := 4/100
def TRAILING_STOP_PCT : ℚ := 25/1000
def Z_OPEN : ℚ := 35/10
def MIN_REARM_SEC : ℚ := 300
def MIN_CASH_PER_TRADE : ℚ := 1
def MIN_OPEN_INTERVAL_SEC : ℚ := 30
def MAX_SIGNAL_AGE_SEC : ℚ := 15
def MIN_MID_PRICE : ℚ := 25/100
def MAX_MID_PRICE : ℚ := 55/100
def MAX_LOSSES_PER_MARKET : ℕ := 2
def ENABLE_TRAILING_STOP : Bool := true
def TREND_TP_PCT : ℚ := 12/100
def TREND_SL_PCT : ℚ := 5/100
def TREND_TIME_EXIT_SEC : ℚ := 480
def TREND_BREAKEVEN_EXIT_SEC : ℚ := 240
def TREND_BREAKEVEN_TOLERANCE : ℚ := 1/100
def TREND_TRAILING_ACTIVATE_PCT : ℚ := 35/1000
def TREND_TRAILING_STOP_PCT : ℚ := 2/100
def TREND_Z_OPEN : ℚ := 35/10
def MARKET_BLOCKLIST : List String :=
  ["106290179211046540747289269936667551104628138202727334337396394027502415762364"]
def PAPER_FEE_RATE : ℚ := 5/1000
def SIZED_CASH_FRAC : ℚ := 10/100
def SIZED_CASH_MIN : ℚ := 1
def SIZED_CASH_MAX : ℚ := 10
def TRAILING_PEAK_DECAY_SEC : ℚ := 60
def TRAILING_PEAK_DECAY_RATE : ℚ := 25/100
def TRAILING_MIN_CONSECUTIVE : ℕ := 2

/-! ### Position (trade.py `Position` dataclass, lines 422-438) -/

structure Position where
  tid : String
  side : String
  qty : ℚ
  entry_mid : ℚ
  entry_ts : ℚ
  fee_open : ℚ
  cost_basis : ℚ
  order_id : String := ""
  fill_price : ℚ := 0
  z_score : ℚ := 0
  peak_profit_pct : ℚ := 0
  trailing_active : Bool := false
  peak_last_updated : ℚ := 0
  consecutive_profit_mids : ℕ := 0
  strategy : String := "FADE"
  deriving Repr, DecidableEq

/-! ### Profit/loss helpers (trade.py lines 448-517) -/

/-- trade.py `_calc_profit_pct` (lines 448-454). -/
def calc_profit_pct (side : String) (entry current : ℚ) : ℚ :=
  if ¬(0 < current ∧ current < 1 ∧ 0 < entry ∧ entry < 1) then 0
  else if side = "BUY" ∨ side = "BUY_LONG" then (current - entry) / entry
  else (entry - current) / (1 - entry)

/-- trade.py `hit_take_profit` (lines 456-457). -/
def hit_take_profit (side : String) (entry current threshold : ℚ) : Bool :=
  decide (threshold ≤ calc_profit_pct side entry current)

/-- trade.py `hit_stop_loss` (lines 459-460). -/
def hit_stop_loss (side : String) (entry current threshold : ℚ) : Bool :=
  decide (calc_profit_pct side entry current ≤ -threshold)

/-- trade.py `hit_breakeven_exit` (lines 462-466). -/
def hit_breakeven_exit (side : String) (entry current age_sec be_sec tolerance : ℚ) : Bool :=
  if age_sec < be_sec then false
  else decide (|calc_profit_pct side entry current| < tolerance)

/-- trade.py `check_trailing_stop` (lines 472-499): returns the should-trail
flag, the new peak, and the position with its `peak_last_updated` and
`consecutive_profit_mids` fields updated in place as the source mutates them. -/
def check_trailing_stop (pos : Position) (current : ℚ) (is_stale : Bool)
    (activate_pct stop_pct : ℚ) (nowT : ℚ) : Bool × ℚ × Position :=
  if ENABLE_TRAILING_STOP = false then (false, pos.peak_profit_pct, pos)
  else
    let profit_pct := calc_profit_pct pos.side pos.entry_mid current
    let st1 : ℚ × ℚ :=
      if 0 < pos.peak_last_updated ∧ TRAILING_PEAK_DECAY_SEC < nowT - pos.peak_last_updated
      then (pos.peak_profit_pct * (1 - TRAILING_PEAK_DECAY_RATE), nowT)
      else (pos.peak_profit_pct, pos.peak_last_updated)
    let st2 : ℚ × ℚ :=
      if is_stale = false ∧ st1.1 < profit_pct then (profit_pct, nowT) else st1
    let consec : ℕ :=
      if is_stale = false ∧ activate_pct ≤ profit_pct then pos.consecutive_profit_mids + 1
      else if is_stale = false then 0
      else pos.consecutive_profit_mids
    let pos' := { pos with peak_last_updated := st2.2, consecutive_profit_mids := consec }
    if activate_pct ≤ st2.1 ∧ TRAILING_MIN_CONSECUTIVE ≤ consec ∧ profit_pct ≤ st2.1 - stop_pct
    then (true, st2.1, pos')
    else (false, st2.1, pos')

/-- trade.py `get_exit_params` (lines 501-517). -/
structure ExitParams where
  tp : ℚ
  sl : ℚ
  time_sec : ℚ
  be_sec : ℚ
  be_tol : ℚ
  trail_activate : ℚ
  trail_stop : ℚ
  deriving Repr, DecidableEq

def get_exit_params (strategy : String) : ExitParams :=
  if strategy = "TREND" then
    { tp := TREND_TP_PCT, sl := TREND_SL_PCT, time_sec := TREND_TIME_EXIT_SEC,
      be_sec := TREND_BREAKEVEN_EXIT_SEC, be_tol := TREND_BREAKEVEN_TOLERANCE,
      trail_activate := TREND_TRAILING_ACTIVATE_PCT, trail_stop := TREND_TRAILING_STOP_PCT }
  else
    { tp := TP_PCT, sl := SL_PCT, time_sec := TIME_EXIT_SEC_PRIMARY,
      be_sec := BREAKEVEN_EXIT_SEC, be_tol := BREAKEVEN_TOLERANCE,
      trail_activate := TRAILING_ACTIVATE_PCT, trail_stop := TRAILING_STOP_PCT }

/-! ### The per-position exit evaluation of the trade loop
(trade.py `main`, lines 1720-1774). Inputs: the position, the current mid
(`broker.get_current_yes_mid`), the executable price
(`broker.get_executable_exit_price`), the staleness flag
(`broker._is_stale_mid`), and the wall clock. Output: the close reason chosen
(if any) and the position as mutated by the trailing-stop block. -/

def evalExit (pos : Position) (current exec_price : ℚ) (is_stale : Bool) (nowT : ℚ) :
    Option String × Position :=
  let age := nowT - pos.entry_ts
  let ep := get_exit_params pos.strategy
  if hit_take_profit pos.side pos.entry_mid exec_price ep.tp then (some "tp", pos)
  else if hit_stop_loss pos.side pos.entry_mid current ep.sl then (some "sl", pos)
  else
    let tres : Option String × Position :=
      if ENABLE_TRAILING_STOP = true ∧ is_stale = false then
        let r := check_trailing_stop pos exec_price is_stale ep.trail_activate ep.trail_stop nowT
        let p1 := { r.2.2 with peak_profit_pct := r.2.1 }
        let p2 := if ep.trail_activate ≤ r.2.1 ∧ p1.trailing_active = false
                  then { p1 with trailing_active := true } else p1
        if r.1 then (some "trailing_stop", p2) else (none, p2)
      else (none, pos)
    match tres.1 with
    | some r => (some r, tres.2)
    | none =>
      if is_stale = false ∧ hit_breakeven_exit pos.side pos.entry_mid current age ep.be_sec ep.be_tol = true
      then (some "breakeven", tres.2)
      else if ep.time_sec ≤ age then (some "time_exit", tres.2)
      else (none, tres.2)

/-- trade.py `LiveBroker.get_executable_exit_price` (lines 1005-1017), with the
freshly cached `(mid, bid, ask)` triple passed in. -/
def live_executable_exit_price (pos : Position) (mid bid ask : ℚ) : ℚ :=
  if pos.side = "BUY" ∨ pos.side = "BUY_LONG" then
    if 0 < bid then bid
    else if 0 < mid then mid else pos.entry_mid
  else
    if 0 < ask then ask
    else if 0 < mid then mid else pos.entry_mid

/-- trade.py `main.try_open` signal-age gate (lines 1781-1784): a candidate row
is skipped as stale when its timestamp is positive and its absolute age exceeds
`MAX_SIGNAL_AGE_SEC`. -/
def signal_stale (ts_epoch nowT : ℚ) : Bool :=
  decide (0 < ts_epoch ∧ MAX_SIGNAL_AGE_SEC < |nowT - ts_epoch|)

/-! ### PaperBroker (trade.py lines 523-725) -/

/-- The paper broker's mutable state together with the module-level
`market_loss_tracker` (trade.py lines 398-416) that `close` feeds and
`is_blocked` consults. -/
structure PaperState where
  cash : ℚ
  positions : List (String × Position) := []
  realized_pnl : ℚ := 0
  trade_count : ℕ := 0
  wins : ℕ := 0
  losses : ℕ := 0
  tp_count : ℕ := 0
  sl_count : ℕ := 0
  time_count : ℕ := 0
  be_count : ℕ := 0
  trail_count : ℕ := 0
  loss_counts : String → ℕ := fun _ => 0

/-- trade.py `PaperBroker.sized_cash` (lines 544-546). -/
def PaperState.sized_cash (s : PaperState) : ℚ :=
  min (max SIZED_CASH_MIN (min (s.cash * SIZED_CASH_FRAC) SIZED_CASH_MAX)) s.cash

/-- trade.py `PaperBroker.fee_for_notional` (lines 551-552). -/
def fee_for_notional (notional : ℚ) : ℚ := |notional| * PAPER_FEE_RATE

/-- trade.py `PaperBroker._is_long_yes` (lines 554-555). -/
def is_long_yes (side : String) : Bool := side = "BUY" ∨ side = "BUY_LONG"

/-- trade.py `PaperBroker.is_blocked` (lines 573-574). -/
def PaperState.is_blocked (s : PaperState) (tid : String) : Bool :=
  MARKET_BLOCKLIST.contains tid || decide (MAX_LOSSES_PER_MARKET ≤ s.loss_counts tid)

/-- trade.py `PaperBroker.should_open` (lines 576-581). -/
def should_open (mid z_score z_min : ℚ) : Bool × String :=
  if mid < MIN_MID_PRICE ∨ MAX_MID_PRICE < mid then (false, "price_range")
  else if z_score < z_min then (false, "z_too_low")
  else (true, "ok")

/-- trade.py `PaperBroker.open` (lines 583-614). Returns the opened position
and the successor state, or `none` when any guard rejects. -/
def paperOpen (s : PaperState) (tid side : String) (mid z_score : ℚ)
    (strategy : String) (nowT : ℚ) : Option (Position × PaperState) :=
  if (s.positions.lookup tid).isSome || s.is_blocked tid then none
  else
    let z_min := if strategy = "TREND" then TREND_Z_OPEN else Z_OPEN
    if (should_open mid z_score z_min).1 = false then none
    else
      let cash_to_use := s.sized_cash
      if cash_to_use < MIN_CASH_PER_TRADE ∨ ¬(0 < mid ∧ mid < 1) then none
      else
        let qty := cash_to_use / max mid (1/1000000000)
        let notional := qty * mid
        let fee_open := fee_for_notional notional
        let total_cost := notional + fee_open
        if s.cash < total_cost then none
        else
          let pos : Position :=
            { tid := tid, side := side, qty := qty, entry_mid := mid, entry_ts := nowT,
              fee_open := fee_open, cost_basis := total_cost, fill_price := mid,
              z_score := z_score, strategy := strategy }
          some (pos, { s with cash := s.cash - total_cost,
                              positions := (tid, pos) :: s.positions,
                              trade_count := s.trade_count + 1 })

/-- trade.py `PaperBroker.close` (lines 651-687). Returns the closed position,
the realized pnl after fees, and the successor state. -/
def paperClose (s : PaperState) (tid : String) (exit_mid : ℚ) (reason : String) :
    Option ((Position × ℚ) × PaperState) :=
  match s.positions.lookup tid with
  | none => none
  | some pos =>
    if ¬(0 < exit_mid ∧ exit_mid < 1) then none
    else
      let exit_notional := pos.qty * exit_mid
      let fee_close := fee_for_notional exit_notional
      let cashPnl : ℚ × ℚ :=
        if is_long_yes pos.side then
          let proceeds := exit_notional - fee_close
          (s.cash + proceeds, pos.qty * (exit_mid - pos.entry_mid) - (pos.fee_open + fee_close))
        else
          let pnl_after_fee := pos.qty * (pos.entry_mid - exit_mid) - (pos.fee_open + fee_close)
          (s.cash + pos.cost_basis + pnl_after_fee, pnl_after_fee)
      let pnl_after_fee := cashPnl.2
      let winLoss : ℕ × ℕ × (String → ℕ) :=
        if 0 < pnl_after_fee then (s.wins + 1, s.losses, s.loss_counts)
        else (s.wins, s.losses + 1,
              fun x => if x = tid then s.loss_counts x + 1 else s.loss_counts x)
      some ((pos, pnl_after_fee),
        { s with cash := cashPnl.1,
                 positions := s.positions.eraseP (fun p => p.1 = tid),
                 realized_pnl := s.realized_pnl + pnl_after_fee,
                 trade_count := s.trade_count + 1,
                 wins := winLoss.1, losses := winLoss.2.1, loss_counts := winLoss.2.2,
                 tp_count := if reason = "tp" then s.tp_count + 1 else s.tp_count,
                 sl_count := if reason = "sl" then s.sl_count + 1 else s.sl_count,
                 time_count := if reason = "time_exit" then s.time_count + 1 else s.time_count,
                 be_count := if reason = "breakeven" then s.be_count + 1 else s.be_count,
                 trail_count := if reason = "trailing_stop" then s.trail_count + 1 else s.trail_count })

/-! ### Scanner (scanner.py) — thresholds lines 74-102, `ActivityTracker` lines 359-477 -/

def Z_TRADEABLE : ℚ := 35/10
def Z_MAX_FADE : ℚ := 6
def MIN_MID : ℚ := 20/100
def MAX_MID : ℚ := 55/100
def MAX_SPREAD_FADE : ℚ := 4/100
def MAX_SPREAD_BASE : ℚ := 10/100
def Z_MIN_TREND : ℚ := 35/10
def MAX_SPREAD_TREND : ℚ := 10/100
def REVERSION_CHECK_SEC : ℚ := 180
def REVERSION_THRESHOLD : ℚ := 50/100
def CONTINUATION_THRESHOLD : ℚ := 20/100

/-- scanner.py FADE eligibility inside `ActivityTracker.record_update`
(lines 411-418): `is_fade_z and mid_ok and fade_spread_ok`. -/
def scanner_is_fade (abs_z mid spread_pct : ℚ) : Bool :=
  decide ((Z_TRADEABLE ≤ abs_z ∧ abs_z < Z_MAX_FADE) ∧
          (MIN_MID ≤ mid ∧ mid ≤ MAX_MID) ∧ spread_pct < MAX_SPREAD_FADE)

/-- scanner.py TREND eligibility inside `ActivityTracker.record_update`
(lines 413-419): `is_trend_z and mid_ok and trend_spread_ok`; no upper z cap. -/
def scanner_is_trend (abs_z mid spread_pct : ℚ) : Bool :=
  decide (Z_MIN_TREND ≤ abs_z ∧
          (MIN_MID ≤ mid ∧ mid ≤ MAX_MID) ∧ spread_pct < MAX_SPREAD_TREND)

/-- scanner.py `SpikeRecord` (lines 318-340). -/
structure SpikeRecord where
  time : ℚ
  slug : String
  spike_mid : ℚ
  pre_mean : ℚ
  z_score : ℚ
  spread : ℚ
  checked : Bool := false
  reverted : Bool := false
  continued : Bool := false
  check_mid : ℚ := 0
  fade_eligible : Bool := false
  trend_eligible : Bool := false
  deriving Repr, DecidableEq

/-- scanner.py `MarketState` (lines 343-356). -/
structure MarketState where
  history : List ℚ := []
  last_mid : ℚ := 0
  last_bid : ℚ := 0
  last_ask : ℚ := 0
  last_spread : ℚ := 999
  last_oi : ℚ := 0
  peak_z : ℚ := 0
  peak_z_time : ℚ := 0
  last_update : ℚ := 0
  deriving Repr, DecidableEq

/-- The per-record body of scanner.py `ActivityTracker._check_reversions`
(lines 444-477): resolve one `SpikeRecord` against the market's current mid. -/
def check_one_reversion (markets : String → Option MarketState) (nowT : ℚ)
    (rec : SpikeRecord) : SpikeRecord :=
  if rec.checked then rec
  else if nowT - rec.time < REVERSION_CHECK_SEC then rec
  else
    match markets rec.slug with
    | none => { rec with checked := true, reverted := false }
    | some ms =>
      if ms.last_mid ≤ 0 then { rec with checked := true, reverted := false }
      else
        let rec1 := { rec with checked := true, check_mid := ms.last_mid }
        let spike_deviation := rec.spike_mid - rec.pre_mean
        if |spike_deviation| < 1/1000000000 then { rec1 with reverted := false }
        else
          let current_deviation := ms.last_mid - rec.pre_mean
          let reversion_amount := spike_deviation - current_deviation
          let reversion_pct :=
            if 1/1000000000 < |spike_deviation| then reversion_amount / spike_deviation else 0
          { rec1 with reverted := decide (REVERSION_THRESHOLD ≤ reversion_pct),
                      continued := decide (reversion_pct < CONTINUATION_THRESHOLD) }

/-- scanner.py `ActivityTracker._check_reversions` over the whole record deque. -/
def check_reversions (markets : String → Option MarketState) (nowT : ℚ)
    (recs : List SpikeRecord) : List SpikeRecord :=
  recs.map (check_one_reversion markets nowT)

/-! ### Monitor signal pipeline (monitor.py) — constants lines 90-127,
math helpers lines 882-943, `process_bbo_update` lines 946-1109.
`statistics.pstdev` takes a real square root, so this layer is embedded
over `ℝ`. -/

/-- Append to a `collections.deque(maxlen=n)`: keep the last `n` elements. -/
def dqAppend {α : Type} (maxlen : ℕ) (l : List α) (x : α) : List α :=
  let l' := l ++ [x]
  l'.drop (l'.length - maxlen)

/-- Python's `statistics.mean`. -/
noncomputable def pymean (l : List ℝ) : ℝ := l.sum / l.length

/-- Population variance, the square of `statistics.pstdev`. -/
noncomputable def pvariance (l : List ℝ) : ℝ :=
  ((l.map (fun x => (x - pymean l) ^ 2)).sum) / l.length

/-- Python's `statistics.pstdev`. -/
noncomputable def pstdev (l : List ℝ) : ℝ := Real.sqrt (pvariance l)

/-- Python's banker's rounding `round(q)` (round-half-to-even). -/
noncomputable def roundHalfEven (q : ℝ) : ℤ :=
  if q - ⌊q⌋ < 1/2 then ⌊q⌋
  else if 1/2 < q - ⌊q⌋ then ⌊q⌋ + 1
  else if Even ⌊q⌋ then ⌊q⌋ else ⌊q⌋ + 1

/-- Python's `round(q, 2)`. -/
noncomputable def pyRound2 (q : ℝ) : ℝ := ((roundHalfEven (q * 100) : ℤ) : ℝ) / 100

noncomputable def BASE_SPIKE_THRESHOLD : ℝ := 3/1000
noncomputable def BASE_Z_SCORE_MIN : ℝ := 8/10
noncomputable def WATCH_Z : ℝ := 3/2
noncomputable def ALERT_Z : ℝ := 3
noncomputable def TAIL_MIN : ℝ := 1/100
noncomputable def TAIL_MAX : ℝ := 99/100
def HISTORY_LEN : ℕ := 50
def GLOBAL_DELTAS_MAXLEN : ℕ := 2000
noncomputable def TOP_PERCENTILE : ℝ := 50
def WARMUP_GLOBAL_MIN : ℕ := 20
noncomputable def WARMUP_Z_EXTRA : ℝ := 1/10
noncomputable def MID_MIN : ℝ := 12/100
noncomputable def MID_MAX : ℝ := 55/100
noncomputable def V24_MIN : ℝ := 10
noncomputable def COOLDOWN_PER_SLUG : ℝ := 60
noncomputable def FADE_Z_MIN : ℝ := 2
noncomputable def FADE_Z_MAX : ℝ := 6
noncomputable def TREND_Z_MIN : ℝ := 3
def REGIME_WINDOW : ℕ := 100
def REGIME_UPDATE_EVERY : ℕ := 20
noncomputable def SPREAD_MAX_SAFE : ℝ := 20/100
noncomputable def SPREAD_MAX_TREND : ℝ := 25/100
noncomputable def POSITION_SIZE_FACTOR : ℝ := 1/100
def MAX_MARKETS : ℕ := 500
noncomputable def MAX_SPREAD_PCT : ℝ := 15/100
noncomputable def SHARES_ACTIVITY_MIN : ℝ := 50

/-- monitor.py `zscore` (lines 882-886). -/
noncomputable def zscore (h : List ℝ) (mid : ℝ) : ℝ :=
  if h.length < 10 then 0
  else if 1/1000000000 < pstdev h then (mid - pymean h) / pstdev h else 0

/-- The last 50 elements, Python's `list(ds)[-50:]`. -/
def recent50 (ds : List ℝ) : List ℝ := ds.drop (ds.length - 50)

/-- monitor.py `adaptive_z` (lines 888-900). -/
noncomputable def adaptive_z (ds : List ℝ) : ℝ :=
  if ds.length < 50 then BASE_Z_SCORE_MIN
  else
    let recent := recent50 ds
    let baseline : ℝ := if 100 < ds.length then pstdev ds else 1
    if baseline = 0 then BASE_Z_SCORE_MIN
    else
      let rt := (if 2 ≤ recent.length then pstdev recent else 1) / baseline
      if 13/10 < rt then max (11/10) (BASE_Z_SCORE_MIN - 3/10)
      else if rt < 7/10 then BASE_Z_SCORE_MIN + 45/100
      else BASE_Z_SCORE_MIN

/-- monitor.py `percentile` (lines 902-905): the rank percentile of `val`
within the sorted delta series, rounded to two decimals. -/
noncomputable def percentile (val : ℝ) (dq : List ℝ) : ℝ :=
  if dq.length < 50 then 0
  else pyRound2 (100 * (((dq.mergeSort (fun a b => decide (a ≤ b))).countP
         (fun x => decide (x ≤ val)) : ℕ) : ℝ) / dq.length)

/-- monitor.py `severity` (lines 907-912). -/
noncomputable def severity (z : ℝ) : String :=
  if ALERT_Z ≤ z then "ALERT" else if WATCH_Z ≤ z then "WATCH" else "INFO"

/-- monitor.py `trade_hint` (lines 914-930). -/
noncomputable def trade_hint (abs_z : ℝ) (spread : Option ℝ) (vol : ℝ) : String × ℝ :=
  match spread with
  | none => ("", 0)
  | some s =>
    if (FADE_Z_MIN ≤ abs_z ∧ abs_z ≤ FADE_Z_MAX) ∧ s ≤ SPREAD_MAX_SAFE then
      ("FADE", min 1 ((abs_z - FADE_Z_MIN) / (FADE_Z_MAX - FADE_Z_MIN)))
    else if TREND_Z_MIN ≤ abs_z ∧ s ≤ SPREAD_MAX_TREND then
      ("TREND", min 1 ((abs_z - TREND_Z_MIN) / (FADE_Z_MAX - TREND_Z_MIN)))
    else ("", 0)

/-- monitor.py `detect_burst` (lines 932-937), with the stored
`STATE.last_spike[slug]` entry passed in (the caller updates the store). -/
noncomputable def detect_burst (prev : Option (ℝ × String × ℝ)) (ts : ℝ)
    (sig : String) (z : ℝ) : String :=
  match prev with
  | none => ""
  | some p => if sig ≠ p.2.1 ∧ 9/2 ≤ |z| ∧ ts - p.1 ≤ 300 then "MEAN_REVERSION" else ""

/-- monitor.py `update_regime` (lines 939-943), returning the new regime. -/
noncomputable def update_regime (outcomes : List String) (regime : String) : String :=
  if outcomes.length < 30 then regime
  else if 65/100 < ((outcomes.countP (fun o => o == "CONTINUED") : ℕ) : ℝ) / outcomes.length
  then "TRENDING" else "MEAN_REVERT"

/-- monitor.py percentile gate of `process_bbo_update` (lines 1023-1029):
returns whether the tick survives and the (possibly warmup-promoted)
percentile value. -/
noncomputable def percentile_gate (absDelta z az : ℝ) (deltas : List ℝ) : Bool × ℝ :=
  let pctl := percentile absDelta deltas
  if deltas.length < WARMUP_GLOBAL_MIN then
    if |z| < az + WARMUP_Z_EXTRA then (false, pctl) else (true, max pctl TOP_PERCENTILE)
  else if pctl < TOP_PERCENTILE then (false, pctl) else (true, pctl)

/-- The discovery-catalog entry for one market (monitor.py `STATE.meta`
values, as far as `process_bbo_update` reads them). -/
structure MetaInfo where
  question : String := ""
  volume24h : ℝ := 0
  shares_traded : ℝ := 0
  open_interest : Option ℝ := none
  deriving Inhabited

/-- One row of the signal CSVs (the fields shared by `TRIGGER_HEADER` and
`OUT_HEADER` that `process_bbo_update` fills from computed values). -/
structure SignalRow where
  ts_epoch : ℝ
  slug : String
  sig : String
  mid : ℝ
  delta : ℝ
  abs_z : ℝ
  dirZ : ℝ
  vol : ℝ
  hint : String
  decision : String
  reason : String
  spread : ℝ
  pos_size : ℝ
  pctl : ℝ
  phase : String

/-- monitor.py `MonitorState` (lines 300-322), restricted to the fields
`process_bbo_update` touches, plus the two signal CSVs as row lists. -/
structure MonitorState where
  hist : String → Option (List ℝ)
  meta : String → Option MetaInfo
  global_deltas : List ℝ
  last_spike : String → Option (ℝ × String × ℝ)
  mid_cache : String → Option (ℝ × ℝ)
  spread_cache : String → Option (List ℝ)
  cooldown : String → Option ℝ
  spike_outcomes : List String
  current_regime : String
  regime_counter : ℕ
  last_msg_time : ℝ
  recent_signals : List (ℝ × String × String × ℝ)
  ws_updates_processed : ℕ
  triggers_rows : List SignalRow
  outlier_rows : List SignalRow

/-- monitor.py `process_bbo_update` (lines 946-1109). `game_phase` stands for
the external Phase-Oracle call `classify_game_phase` (out of scope); `nowT` is
the wall clock. -/
noncomputable def processBBOUpdate (st : MonitorState) (slug : String)
    (best_bid best_ask : Option ℝ) (market_state : String)
    (shares_traded open_interest : Option ℝ) (nowT : ℝ) (game_phase : String) :
    MonitorState :=
  match st.meta slug with
  | none => st
  | some meta0 =>
    if market_state ≠ "" ∧ market_state ≠ "MARKET_STATE_OPEN" then st
    else
      match best_bid, best_ask with
      | some bb, some ba =>
        if ¬(0 < bb ∧ bb < 1 ∧ 0 < ba ∧ ba < 1) then st
        else
          let mid := (bb + ba) / 2
          let spread := ba - bb
          if ¬(TAIL_MIN ≤ mid ∧ mid ≤ TAIL_MAX) then st
          else
            let ts_epoch := nowT
            let st1 := { st with
              mid_cache := fun s => if s = slug then some (mid, nowT) else st.mid_cache s,
              last_msg_time := nowT,
              ws_updates_processed := st.ws_updates_processed + 1 }
            let st2 := if 0 < spread then
                { st1 with spread_cache := fun s =>
                    if s = slug then some (dqAppend 10 ((st1.spread_cache slug).getD []) spread)
                    else st1.spread_cache s }
              else st1
            if MAX_SPREAD_PCT < spread then st2
            else
              let meta1 := match shares_traded with
                | some sh => { meta0 with shares_traded := sh }
                | none => meta0
              let meta2 := match open_interest with
                | some oiv => { meta1 with open_interest := some oiv }
                | none => meta1
              let st3 := { st2 with meta := fun s => if s = slug then some meta2 else st2.meta s }
              let h := (st3.hist slug).getD []
              let mid_before := (h.getLast?).getD mid
              let delta := mid - mid_before
              let h' := dqAppend HISTORY_LEN h mid
              let gd := dqAppend GLOBAL_DELTAS_MAXLEN st3.global_deltas |delta|
              let st4 := { st3 with
                hist := fun s => if s = slug then some h' else st3.hist s,
                global_deltas := gd }
              let z := zscore h' mid
              let az := adaptive_z gd
              let curr_spread := match st4.spread_cache slug with
                | some l => l.getLast?.getD spread
                | none => spread
              if |delta| < BASE_SPIKE_THRESHOLD ∨ |z| < az then st4
              else
                let gate := percentile_gate |delta| z az gd
                if gate.1 = false then st4
                else
                  let pctl := gate.2
                  let sig := if 0 < delta then "SPIKE" else "DIP"
                  let sev := severity |z|
                  let burst := detect_burst (st4.last_spike slug) ts_epoch sig z
                  let st5 := { st4 with
                    last_spike := fun s => if s = slug then some (ts_epoch, sig, z) else st4.last_spike s }
                  let dirZ := delta * |z|
                  let st6 := { st5 with
                    recent_signals := dqAppend 100 st5.recent_signals (ts_epoch, slug, sig, z) }
                  let outcome := if burst = "MEAN_REVERSION" then "REVERTED" else "CONTINUED"
                  let st7 := if burst ≠ "" then
                      { st6 with spike_outcomes := dqAppend REGIME_WINDOW st6.spike_outcomes outcome }
                    else st6
                  let st8 := if REGIME_UPDATE_EVERY ≤ st7.regime_counter + 1 then
                      { st7 with current_regime := update_regime st7.spike_outcomes st7.current_regime,
                                 regime_counter := 0 }
                    else { st7 with regime_counter := st7.regime_counter + 1 }
                  let vol := meta2.volume24h
                  let shares := meta2.shares_traded
                  let oiv := (meta2.open_interest).getD 0
                  let effective_vol := if 0 < vol then vol
                    else if SHARES_ACTIVITY_MIN < shares then shares else oiv
                  let hc := trade_hint |z| (some curr_spread) effective_vol
                  let dr : String × String × MonitorState :=
                    if hc.1 ≠ "" then
                      if effective_vol < V24_MIN then ("REJECT", "REJECT_VOLUME", st8)
                      else if ¬(MID_MIN ≤ mid ∧ mid ≤ MID_MAX) then ("REJECT", "REJECT_BOUNDS", st8)
                      else if nowT < (st8.cooldown slug).getD 0 then ("REJECT", "REJECT_COOLDOWN", st8)
                      else ("ACCEPT", "ACCEPT_" ++ hc.1,
                        { st8 with cooldown := fun s =>
                            if s = slug then some (nowT + COOLDOWN_PER_SLUG) else st8.cooldown s })
                    else ("REJECT", "WEAK_SIGNAL", st8)
                  let st9 := dr.2.2
                  let pos_size := if dr.1 = "ACCEPT" then POSITION_SIZE_FACTOR * hc.2 else 0
                  let row : SignalRow :=
                    { ts_epoch := ts_epoch, slug := slug, sig := sig, mid := mid, delta := delta,
                      abs_z := |z|, dirZ := dirZ, vol := effective_vol, hint := hc.1,
                      decision := dr.1, reason := dr.2.1, spread := curr_spread,
                      pos_size := pos_size, pctl := pctl, phase := game_phase }
                  let _ := sev
                  { st9 with triggers_rows := st9.triggers_rows ++ [row],
                             outlier_rows := st9.outlier_rows ++ [row] }
      | _, _ => st

/-! ### Concrete states used by boundary checks -/

/-- A fresh paper broker with the default $10 of cash. -/
def s10 : PaperState := { cash := 10 }

/-- A paper broker holding $1.01, just enough to clear the open guards. -/
def sLow : PaperState := { cash := 101/100 }

/-- The position booked by `paperOpen s10 "m" "BUY_NO" (3/10) 5 "FADE" 0`. -/
def posNo10 : Position :=
  { tid := "m", side := "BUY_NO", qty := 10/3, entry_mid := 3/10, entry_ts := 0,
    fee_open := 1/200, cost_basis := 201/200, fill_price := 3/10, z_score := 5,
    strategy := "FADE" }

/-- The broker state after `paperOpen s10 "m" "BUY_NO" (3/10) 5 "FADE" 0`. -/
def s10After : PaperState :=
  { cash := 1799/200, positions := [("m", posNo10)], trade_count := 1 }

/-- The position booked by `paperOpen sLow "m" "BUY_NO" (1/4) 5 "FADE" 0`. -/
def posNoLow : Position :=
  { tid := "m", side := "BUY_NO", qty := 4, entry_mid := 1/4, entry_ts := 0,
    fee_open := 1/200, cost_basis := 201/200, fill_price := 1/4, z_score := 5,
    strategy := "FADE" }

/-- The broker state after `paperOpen sLow "m" "BUY_NO" (1/4) 5 "FADE" 0`. -/
def sLowAfter : PaperState :=
  { cash := 1/200, positions := [("m", posNoLow)], trade_count := 1 }

/-- A YES-long position used to exercise the close path. -/
def posYesEx : Position :=
  { tid := "y", side := "BUY", qty := 2, entry_mid := 1/2, entry_ts := 0,
    fee_open := 0, cost_basis := 1 }

/-- A paper broker holding the YES-long position `posYesEx`. -/
def sYes : PaperState := { cash := 5, positions := [("y", posYesEx)] }

/-- `sYes` after closing `posYesEx` at mid 0.9. -/
def sYesAfter : PaperState :=
  { cash := 6791/1000, positions := [], realized_pnl := 791/1000, trade_count := 1,
    wins := 1, tp_count := 1 }

/-- A YES-long FADE position opened at mid 0.30, used to exercise the exit
evaluator. -/
def posEx : Position :=
  { tid := "c", side := "BUY", qty := 1, entry_mid := 3/10, entry_ts := 0,
    fee_open := 0, cost_basis := 1 }

/-- A concrete unresolved spike record: spiked to 0.60 from a pre-spike mean
of 0.40. -/
def spikeEx : SpikeRecord :=
  { time := 0, slug := "s", spike_mid := 6/10, pre_mean := 4/10, z_score := 5, spread := 1/100 }

/-- A scanner market map whose every market currently trades at mid 0.50. -/
def marketsEx : String → Option MarketState := fun _ => some { last_mid := 1/2 }

/-- A 60-sample global delta series: ten large outliers (14) followed by 50
small deltas alternating between 0 and 2 in blocks. -/
noncomputable def dsC7 : List ℝ :=
  List.replicate 10 14 ++ (List.replicate 25 0 ++ List.replicate 25 2)

/-- An empty monitor state (no market catalogued). -/
def emptyMonitorState : MonitorState :=
  { hist := fun _ => none, meta := fun _ => none, global_deltas := [],
    last_spike := fun _ => none, mid_cache := fun _ => none,
    spread_cache := fun _ => none, cooldown := fun _ => none,
    spike_outcomes := [], current_regime := "MEAN_REVERT", regime_counter := 0,
    last_msg_time := 0, recent_signals := [], ws_updates_processed := 0,
    triggers_rows := [], outlier_rows := [] }

end PMUS

namespace PMUS

/-! ### Helper lemmas about `paperOpen` and `paperClose` -/

/-- Anatomy of a successful paper open: the guards that held and the exact
position and successor state booked. -/
lemma paperOpen_spec {s : PaperState} {tid side strat : String} {mid z nowT : ℚ}
    {pos : Position} {s' : PaperState}
    (h : paperOpen s tid side mid z strat nowT = some (pos, s')) :
    MIN_MID_PRICE ≤ mid ∧ mid ≤ MAX_MID_PRICE ∧
    MIN_CASH_PER_TRADE ≤ s.sized_cash ∧
    pos.qty = s.sized_cash / mid ∧
    pos.entry_mid = mid ∧
    pos.side = side ∧
    pos.fee_open = |pos.qty * mid| * PAPER_FEE_RATE ∧
    pos.cost_basis = pos.qty * mid + pos.fee_open ∧
    pos.cost_basis ≤ s.cash ∧
    s'.cash = s.cash - pos.cost_basis ∧
    s'.positions = (tid, pos) :: s.positions := by
  simp only [paperOpen] at h
  set zmin := if strat = "TREND" then TREND_Z_OPEN else Z_OPEN with hzm
  split_ifs at h with h1 h2 h3 h4
  have hso : ¬(mid < MIN_MID_PRICE ∨ MAX_MID_PRICE < mid) := by
    intro hc
    simp [should_open, hc] at h2
  push_neg at hso
  have hguard : ¬(s.sized_cash < MIN_CASH_PER_TRADE) := fun hc => h3 (Or.inl hc)
  push_neg at hguard
  have hmax : max mid (1/1000000000 : ℚ) = mid :=
    max_eq_left (le_trans (by norm_num [MIN_MID_PRICE]) hso.1)
  rw [hmax] at h h4
  rw [Option.some_inj, Prod.mk.injEq] at h
  obtain ⟨hpos, hs'⟩ := h
  subst hpos
  subst hs'
  refine ⟨hso.1, hso.2, hguard, rfl, rfl, rfl, ?_, rfl, ?_, rfl, rfl⟩
  · simp [fee_for_notional]
  · exact le_of_not_lt h4

/-- A successful paper open books a strictly positive cost basis
(and in fact pays exactly the sized cash plus the fee). -/
lemma paperOpen_cost_pos {s : PaperState} {tid side strat : String} {mid z nowT : ℚ}
    {pos : Position} {s' : PaperState}
    (h : paperOpen s tid side mid z strat nowT = some (pos, s')) :
    0 < pos.cost_basis := by
  obtain ⟨h1, _, h3, h4, _, _, h7, h8, _⟩ := paperOpen_spec h
  have hmid : (0:ℚ) < mid := lt_of_lt_of_le (by norm_num [MIN_MID_PRICE]) h1
  have hq : pos.qty * mid = s.sized_cash := by
    rw [h4, div_mul_cancel₀ _ (ne_of_gt hmid)]
  have hc : (1:ℚ) ≤ s.sized_cash := by
    simpa [MIN_CASH_PER_TRADE] using h3
  rw [h8, h7, hq]
  have hfee : (0:ℚ) ≤ |s.sized_cash| * PAPER_FEE_RATE :=
    mul_nonneg (abs_nonneg _) (by norm_num [PAPER_FEE_RATE])
  linarith

/-- Anatomy of a successful paper close: the position closed was the stored
one, the exit mid was in range, and the exact cash movement. -/
lemma paperClose_spec {s : PaperState} {tid reason : String} {exit_mid : ℚ}
    {pos : Position} {pnl : ℚ} {s' : PaperState}
    (h : paperClose s tid exit_mid reason = some ((pos, pnl), s')) :
    s.positions.lookup tid = some pos ∧ 0 < exit_mid ∧ exit_mid < 1 ∧
    (is_long_yes pos.side = true →
      s'.cash = s.cash + (pos.qty * exit_mid - |pos.qty * exit_mid| * PAPER_FEE_RATE)) ∧
    (is_long_yes pos.side = false →
      s'.cash = s.cash + pos.cost_basis + pnl ∧
      pnl = pos.qty * (pos.entry_mid - exit_mid) -
            (pos.fee_open + |pos.qty * exit_mid| * PAPER_FEE_RATE)) := by
  simp only [paperClose, fee_for_notional] at h
  cases hl : s.positions.lookup tid with
  | none => simp [hl] at h
  | some p =>
    simp only [hl] at h
    by_cases hrange : 0 < exit_mid ∧ exit_mid < 1
    · rw [if_neg (not_not_intro hrange)] at h
      rw [Option.some_inj, Prod.mk.injEq, Prod.mk.injEq] at h
      obtain ⟨⟨hp, hpnl⟩, hs'⟩ := h
      subst hp
      subst hpnl
      subst hs'
      refine ⟨rfl, hrange.1, hrange.2, ?_, ?_⟩
      · intro hc
        simp only [hc, if_true]
      · intro hc
        simp only [hc, Bool.false_eq_true, if_false]
        exact ⟨trivial, trivial⟩
    · rw [if_pos hrange] at h
      exact Option.noConfusion h

/-- The FADE exit-parameter bundle, fully evaluated. -/
lemma get_exit_params_fade :
    get_exit_params "FADE" =
      { tp := TP_PCT, sl := SL_PCT, time_sec := TIME_EXIT_SEC_PRIMARY,
        be_sec := BREAKEVEN_EXIT_SEC, be_tol := BREAKEVEN_TOLERANCE,
        trail_activate := TRAILING_ACTIVATE_PCT, trail_stop := TRAILING_STOP_PCT } := by
  rw [get_exit_params, if_neg (by decide)]

/-! ### Concrete evaluations of the paper broker -/

/-- Opening BUY_NO at mid 0.30 from the default $10 broker. -/
lemma open10_eq : paperOpen s10 "m" "BUY_NO" (3/10) 5 "FADE" 0 = some (posNo10, s10After) := by
  norm_num [paperOpen, s10, s10After, posNo10, PaperState.is_blocked, MARKET_BLOCKLIST,
    should_open, PaperState.sized_cash, fee_for_notional, MIN_MID_PRICE, MAX_MID_PRICE,
    MIN_CASH_PER_TRADE, Z_OPEN, TREND_Z_OPEN, SIZED_CASH_MIN, SIZED_CASH_MAX, SIZED_CASH_FRAC,
    PAPER_FEE_RATE, MAX_LOSSES_PER_MARKET, List.lookup, min_def, max_def, abs_of_pos]
  exact fun hcontra => absurd hcontra (by decide)

/-- Opening BUY_NO at mid 0.25 from the $1.01 broker. -/
lemma openLow_eq : paperOpen sLow "m" "BUY_NO" (1/4) 5 "FADE" 0 = some (posNoLow, sLowAfter) := by
  norm_num [paperOpen, sLow, sLowAfter, posNoLow, PaperState.is_blocked, MARKET_BLOCKLIST,
    should_open, PaperState.sized_cash, fee_for_notional, MIN_MID_PRICE, MAX_MID_PRICE,
    MIN_CASH_PER_TRADE, Z_OPEN, TREND_Z_OPEN, SIZED_CASH_MIN, SIZED_CASH_MAX, SIZED_CASH_FRAC,
    PAPER_FEE_RATE, MAX_LOSSES_PER_MARKET, List.lookup, min_def, max_def, abs_of_pos]
  exact fun hcontra => absurd hcontra (by decide)

/-- Closing the BUY_NO position of `sLowAfter` at mid 0.99 leaves the cash
balance at −1.9748. -/
lemma closeLow_cash :
    (paperClose sLowAfter "m" (99/100) "sl").map (fun r => r.2.cash) = some (-4937/2500) := by
  norm_num [paperClose, sLowAfter, posNoLow, fee_for_notional, is_long_yes,
    PAPER_FEE_RATE, List.lookup, abs_of_pos]
  rw [if_neg (by decide)]

/-- Closing the YES-long `posYesEx` at mid 0.9. -/
lemma closeYes_eq :
    paperClose sYes "y" (9/10) "tp" = some ((posYesEx, 791/1000), sYesAfter) := by
  norm_num [paperClose, sYes, sYesAfter, posYesEx, fee_for_notional, is_long_yes,
    PAPER_FEE_RATE, List.lookup, List.eraseP, abs_of_pos]
  decide

/-! ### Claim theorems -/

/-- C2 (amended): for every successful paper-broker open — on either side —
the quantity equals the sized cash divided by the mid (the code uses the mid
as unit cost for BUY_NO as well), and `qty * mid + fee_open = cost_basis > 0`. -/
theorem paper_open_qty_cost (s : PaperState) (tid side strat : String)
    (mid z nowT : ℚ) (pos : Position) (s' : PaperState)
    (h : paperOpen s tid side mid z strat nowT = some (pos, s')) :
    pos.qty = s.sized_cash / mid ∧
    pos.qty * mid + pos.fee_open = pos.cost_basis ∧
    0 < pos.cost_basis := by
  obtain ⟨_, _, _, h4, _, _, _, h8, _⟩ := paperOpen_spec h
  exact ⟨h4, h8.symm, paperOpen_cost_pos h⟩

/-- C2 witness: the theorem applied to the concrete BUY_NO open at mid 0.30. -/
theorem paper_open_qty_cost_witness :
    paperOpen s10 "m" "BUY_NO" (3/10) 5 "FADE" 0 = some (posNo10, s10After) ∧
    (posNo10.qty = s10.sized_cash / (3/10) ∧
     posNo10.qty * (3/10) + posNo10.fee_open = posNo10.cost_basis ∧
     0 < posNo10.cost_basis) :=
  ⟨open10_eq, paper_open_qty_cost _ _ _ _ _ _ _ _ _ open10_eq⟩

/-- C2 counterexample: a successful BUY_NO open whose quantity is NOT the
sized cash divided by `1 − mid`, and whose cost basis does NOT satisfy
`qty * (1 − mid) + fee_open = cost_basis` — refuting the side-dependent
unit-cost claim. -/
theorem paper_open_no_unit_cost_cex :
    paperOpen s10 "m" "BUY_NO" (3/10) 5 "FADE" 0 = some (posNo10, s10After) ∧
    posNo10.qty ≠ s10.sized_cash / (1 - 3/10) ∧
    posNo10.qty * (1 - 3/10) + posNo10.fee_open ≠ posNo10.cost_basis := by
  refine ⟨open10_eq, ?_, ?_⟩ <;>
    norm_num [posNo10, s10, PaperState.sized_cash, SIZED_CASH_MIN, SIZED_CASH_MAX,
      SIZED_CASH_FRAC, min_def, max_def]

/-- C4 (amended): after every successful paper open the cash is non-negative,
and — when every already-open cost basis is non-negative — so is
`cash + Σ cost_basis`; a close of a YES-long position with non-negative
quantity never decreases cash. (A close of a BUY_NO position can leave the
cash negative; see the counterexample.) -/
theorem paper_cash_invariant :
    (∀ (s : PaperState) (tid side strat : String) (mid z nowT : ℚ)
       (pos : Position) (s' : PaperState),
      paperOpen s tid side mid z strat nowT = some (pos, s') →
      (∀ p ∈ s.positions, 0 ≤ p.2.cost_basis) →
      0 ≤ s'.cash ∧
      0 ≤ s'.cash + ((s'.positions.map (fun p => p.2.cost_basis)).sum)) ∧
    (∀ (s : PaperState) (tid reason : String) (exit_mid : ℚ)
       (pos : Position) (pnl : ℚ) (s' : PaperState),
      paperClose s tid exit_mid reason = some ((pos, pnl), s') →
      is_long_yes pos.side = true → 0 ≤ pos.qty →
      s.cash ≤ s'.cash) := by
  constructor
  · intro s tid side strat mid z nowT pos s' h hbasis
    obtain ⟨_, _, _, _, _, _, _, _, hle, hcash, hpos⟩ := paperOpen_spec h
    have hcpos := paperOpen_cost_pos h
    have h0 : 0 ≤ s'.cash := by rw [hcash]; linarith
    refine ⟨h0, ?_⟩
    have hsum : 0 ≤ ((s.positions.map (fun p => p.2.cost_basis)).sum) := by
      apply List.sum_nonneg
      intro q hq
      simp only [List.mem_map] at hq
      obtain ⟨p, hp, rfl⟩ := hq
      exact hbasis p hp
    rw [hpos]
    simp only [List.map_cons, List.sum_cons]
    linarith
  · intro s tid reason exit_mid pos pnl s' h hyes hqty
    obtain ⟨_, hlt, _, hcash, _⟩ := paperClose_spec h
    rw [hcash hyes]
    have hnot : 0 ≤ pos.qty * exit_mid := mul_nonneg hqty (le_of_lt hlt)
    rw [abs_of_nonneg hnot]
    have : 0 ≤ pos.qty * exit_mid - pos.qty * exit_mid * PAPER_FEE_RATE := by
      have : pos.qty * exit_mid * PAPER_FEE_RATE ≤ pos.qty * exit_mid * 1 := by
        apply mul_le_mul_of_nonneg_left _ hnot
        norm_num [PAPER_FEE_RATE]
      linarith
    linarith

/-- C4 witness: the open half applied to the concrete $1.01 open, and the
close half applied to a concrete YES-long close. -/
theorem paper_cash_invariant_witness :
    (paperOpen sLow "m" "BUY_NO" (1/4) 5 "FADE" 0 = some (posNoLow, sLowAfter) ∧
     0 ≤ sLowAfter.cash ∧
     0 ≤ sLowAfter.cash + ((sLowAfter.positions.map (fun p => p.2.cost_basis)).sum)) ∧
    (paperClose sYes "y" (9/10) "tp" = some ((posYesEx, 791/1000), sYesAfter) ∧
     sYes.cash ≤ sYesAfter.cash) :=
  ⟨⟨openLow_eq, paper_cash_invariant.1 _ _ _ _ _ _ _ _ _ openLow_eq (by simp [sLow])⟩,
   ⟨closeYes_eq, paper_cash_invariant.2 _ _ _ _ _ _ _ closeYes_eq (by norm_num [is_long_yes, posYesEx])
      (by norm_num [posYesEx])⟩⟩

/-- C4 counterexample: starting from a non-negative balance of $1.01, a legal
BUY_NO open at mid 0.25 followed by a close at mid 0.99 leaves the cash at
−1.9748 < 0, refuting "after every close, cash ≥ 0". -/
theorem paper_close_negative_cash_cex :
    paperOpen sLow "m" "BUY_NO" (1/4) 5 "FADE" 0 = some (posNoLow, sLowAfter) ∧
    (paperClose sLowAfter "m" (99/100) "sl").map (fun r => r.2.cash) = some (-4937/2500) ∧
    (-4937/2500 : ℚ) < 0 :=
  ⟨openLow_eq, closeLow_cash, by norm_num⟩

/-- C9 (amended): the opening-discipline age gate rejects a signal exactly
when its absolute age strictly exceeds 15 seconds; a signal whose age is
exactly 15 seconds passes the check. -/
theorem signal_age_gate (ts_epoch nowT : ℚ) (hts : 0 < ts_epoch) :
    (signal_stale ts_epoch nowT = true ↔ MAX_SIGNAL_AGE_SEC < |nowT - ts_epoch|) ∧
    (|nowT - ts_epoch| = MAX_SIGNAL_AGE_SEC → signal_stale ts_epoch nowT = false) := by
  constructor
  · simp [signal_stale, hts]
  · intro h
    simp [signal_stale, hts, h]

/-- C9 witness: the theorem applied at timestamp 100, clock 115. -/
theorem signal_age_gate_witness :
    (0:ℚ) < 100 ∧ (signal_stale 100 115 = true ↔ MAX_SIGNAL_AGE_SEC < |(115:ℚ) - 100|) :=
  ⟨by norm_num, (signal_age_gate 100 115 (by norm_num)).1⟩

/-- C9 counterexample: a signal whose age is exactly 15 seconds is NOT
rejected by the age gate, refuting "age exactly 15 s → rejected". -/
theorem signal_age_exactly15_cex :
    |(115:ℚ) - 100| = MAX_SIGNAL_AGE_SEC ∧ signal_stale 100 115 = false := by
  norm_num [signal_stale, MAX_SIGNAL_AGE_SEC]

/-- C1 (amended): the five exit rules fire in the priority order take-profit,
stop-loss, trailing stop, breakeven, hard time-exit; take-profit and the
trailing stop are evaluated against the EXECUTABLE exit price while stop-loss
and breakeven are evaluated against the current MID; and the live broker's
executable exit price is the best bid for a YES-long and the best ask for a
NO-long position. -/
theorem evalExit_priority (pos : Position) (current exec_price : ℚ) (is_stale : Bool) (nowT : ℚ) :
    ((evalExit pos current exec_price is_stale nowT).1 = some "tp" ↔
      hit_take_profit pos.side pos.entry_mid exec_price (get_exit_params pos.strategy).tp = true) ∧
    ((evalExit pos current exec_price is_stale nowT).1 = some "sl" ↔
      (hit_take_profit pos.side pos.entry_mid exec_price (get_exit_params pos.strategy).tp = false ∧
       hit_stop_loss pos.side pos.entry_mid current (get_exit_params pos.strategy).sl = true)) ∧
    ((evalExit pos current exec_price is_stale nowT).1 = some "trailing_stop" ↔
      (hit_take_profit pos.side pos.entry_mid exec_price (get_exit_params pos.strategy).tp = false ∧
       hit_stop_loss pos.side pos.entry_mid current (get_exit_params pos.strategy).sl = false ∧
       is_stale = false ∧
       (check_trailing_stop pos exec_price is_stale (get_exit_params pos.strategy).trail_activate
          (get_exit_params pos.strategy).trail_stop nowT).1 = true)) ∧
    ((evalExit pos current exec_price is_stale nowT).1 = some "breakeven" ↔
      (hit_take_profit pos.side pos.entry_mid exec_price (get_exit_params pos.strategy).tp = false ∧
       hit_stop_loss pos.side pos.entry_mid current (get_exit_params pos.strategy).sl = false ∧
       ¬(is_stale = false ∧
         (check_trailing_stop pos exec_price is_stale (get_exit_params pos.strategy).trail_activate
            (get_exit_params pos.strategy).trail_stop nowT).1 = true) ∧
       is_stale = false ∧
       hit_breakeven_exit pos.side pos.entry_mid current (nowT - pos.entry_ts)
         (get_exit_params pos.strategy).be_sec (get_exit_params pos.strategy).be_tol = true)) ∧
    ((evalExit pos current exec_price is_stale nowT).1 = some "time_exit" ↔
      (hit_take_profit pos.side pos.entry_mid exec_price (get_exit_params pos.strategy).tp = false ∧
       hit_stop_loss pos.side pos.entry_mid current (get_exit_params pos.strategy).sl = false ∧
       ¬(is_stale = false ∧
         (check_trailing_stop pos exec_price is_stale (get_exit_params pos.strategy).trail_activate
            (get_exit_params pos.strategy).trail_stop nowT).1 = true) ∧
       ¬(is_stale = false ∧
         hit_breakeven_exit pos.side pos.entry_mid current (nowT - pos.entry_ts)
           (get_exit_params pos.strategy).be_sec (get_exit_params pos.strategy).be_tol = true) ∧
       (get_exit_params pos.strategy).time_sec ≤ nowT - pos.entry_ts)) ∧
    (∀ mid bid ask : ℚ, is_long_yes pos.side = true → 0 < bid →
       live_executable_exit_price pos mid bid ask = bid) ∧
    (∀ mid bid ask : ℚ, is_long_yes pos.side = false → 0 < ask →
       live_executable_exit_price pos mid bid ask = ask) := by
  refine ⟨?_, ?_, ?_, ?_, ?_, ?_, ?_⟩
  all_goals try (
    cases htp : hit_take_profit pos.side pos.entry_mid exec_price (get_exit_params pos.strategy).tp <;>
    cases hsl : hit_stop_loss pos.side pos.entry_mid current (get_exit_params pos.strategy).sl <;>
    cases is_stale <;>
    cases htr : (check_trailing_stop pos exec_price false (get_exit_params pos.strategy).trail_activate
        (get_exit_params pos.strategy).trail_stop nowT).1 <;>
    cases hbe : hit_breakeven_exit pos.side pos.entry_mid current (nowT - pos.entry_ts)
        (get_exit_params pos.strategy).be_sec (get_exit_params pos.strategy).be_tol <;>
    by_cases hage : (get_exit_params pos.strategy).time_sec ≤ nowT - pos.entry_ts <;>
    simp [evalExit, ENABLE_TRAILING_STOP, htp, hsl, htr, hbe, hage])
  · intro mid bid ask hly hbid
    have hor : pos.side = "BUY" ∨ pos.side = "BUY_LONG" := by
      simpa [is_long_yes] using hly
    simp [live_executable_exit_price, hor, hbid]
  · intro mid bid ask hly hask
    have hor : ¬(pos.side = "BUY" ∨ pos.side = "BUY_LONG") := by
      simpa [is_long_yes] using hly
    simp [live_executable_exit_price, hor, hask]

/-- C1 witness: the executable-price clauses applied at a concrete YES-long
position and book. -/
theorem evalExit_priority_witness :
    is_long_yes posEx.side = true ∧ (0:ℚ) < 28/100 ∧
    live_executable_exit_price posEx (3/10) (28/100) (32/100) = 28/100 :=
  ⟨by norm_num [is_long_yes, posEx], by norm_num,
   (evalExit_priority posEx (3/10) (3/10) false 0).2.2.2.2.2.1 (3/10) (28/100) (32/100)
     (by norm_num [is_long_yes, posEx]) (by norm_num)⟩

/-- C1 counterexample: two exit evaluations that agree on the executable exit
price (0.30) but differ on the mid (0.25 vs 0.30): the stop-loss fires from
the mid alone, so the evaluator is NOT a function of the executable price
only — refuting "every rule is evaluated against the executable exit price,
never against the mid". -/
theorem evalExit_uses_mid_cex :
    (evalExit posEx (1/4) (3/10) false 1).1 = some "sl" ∧
    (evalExit posEx (3/10) (3/10) false 1).1 = none := by
  constructor <;>
    norm_num [evalExit, posEx, get_exit_params_fade, hit_take_profit, hit_stop_loss,
      hit_breakeven_exit, check_trailing_stop, calc_profit_pct, ENABLE_TRAILING_STOP,
      TRAILING_MIN_CONSECUTIVE, TRAILING_PEAK_DECAY_SEC, TRAILING_PEAK_DECAY_RATE,
      TP_PCT, SL_PCT, TIME_EXIT_SEC_PRIMARY, BREAKEVEN_EXIT_SEC, BREAKEVEN_TOLERANCE,
      TRAILING_ACTIVATE_PCT, TRAILING_STOP_PCT]

/-- C3 (amended): on a stale tick the evaluator leaves the position (and in
particular its trailing peak and consecutive-profit counter) unchanged, never
fires the trailing stop, never fires the breakeven exit either (the code gates
breakeven behind "not is_stale", contrary to the claim), and still fires the
hard time exit once the age reaches the limit and neither TP nor SL fired. -/
theorem evalExit_stale (pos : Position) (current exec_price nowT : ℚ) :
    (evalExit pos current exec_price true nowT).2 = pos ∧
    (evalExit pos current exec_price true nowT).1 ≠ some "trailing_stop" ∧
    (evalExit pos current exec_price true nowT).1 ≠ some "breakeven" ∧
    (hit_take_profit pos.side pos.entry_mid exec_price (get_exit_params pos.strategy).tp = false →
     hit_stop_loss pos.side pos.entry_mid current (get_exit_params pos.strategy).sl = false →
     (get_exit_params pos.strategy).time_sec ≤ nowT - pos.entry_ts →
     (evalExit pos current exec_price true nowT).1 = some "time_exit") := by
  cases htp : hit_take_profit pos.side pos.entry_mid exec_price (get_exit_params pos.strategy).tp <;>
  cases hsl : hit_stop_loss pos.side pos.entry_mid current (get_exit_params pos.strategy).sl <;>
  by_cases hage : (get_exit_params pos.strategy).time_sec ≤ nowT - pos.entry_ts <;>
  simp [evalExit, ENABLE_TRAILING_STOP, htp, hsl, hage]

/-- C3 witness: on a stale tick at age 800 s the FADE hard time exit fires. -/
theorem evalExit_stale_witness :
    hit_take_profit posEx.side posEx.entry_mid (3/10) (get_exit_params posEx.strategy).tp = false ∧
    hit_stop_loss posEx.side posEx.entry_mid (3/10) (get_exit_params posEx.strategy).sl = false ∧
    (get_exit_params posEx.strategy).time_sec ≤ 800 - posEx.entry_ts ∧
    (evalExit posEx (3/10) (3/10) true 800).1 = some "time_exit" := by
  have h1 : hit_take_profit posEx.side posEx.entry_mid (3/10) (get_exit_params posEx.strategy).tp = false := by
    norm_num [hit_take_profit, calc_profit_pct, posEx, get_exit_params_fade, TP_PCT]
  have h2 : hit_stop_loss posEx.side posEx.entry_mid (3/10) (get_exit_params posEx.strategy).sl = false := by
    norm_num [hit_stop_loss, calc_profit_pct, posEx, get_exit_params_fade, SL_PCT]
  have h3 : (get_exit_params posEx.strategy).time_sec ≤ 800 - posEx.entry_ts := by
    norm_num [posEx, get_exit_params_fade, TIME_EXIT_SEC_PRIMARY]
  exact ⟨h1, h2, h3, (evalExit_stale posEx (3/10) (3/10) 800).2.2.2 h1 h2 h3⟩

/-- C3 counterexample: a stale tick at age 500 s whose breakeven conditions
hold (age ≥ 480 s, |profit| = 0 < tolerance), yet the evaluator fires NO exit
at all — refuting "the breakeven exit still fires on a stale tick". -/
theorem evalExit_stale_breakeven_cex :
    hit_breakeven_exit posEx.side posEx.entry_mid (3/10) (500 - posEx.entry_ts)
      (get_exit_params posEx.strategy).be_sec (get_exit_params posEx.strategy).be_tol = true ∧
    (evalExit posEx (3/10) (3/10) true 500).1 = none := by
  constructor <;>
    norm_num [evalExit, posEx, get_exit_params_fade, hit_take_profit, hit_stop_loss,
      hit_breakeven_exit, calc_profit_pct, ENABLE_TRAILING_STOP,
      TP_PCT, SL_PCT, TIME_EXIT_SEC_PRIMARY, BREAKEVEN_EXIT_SEC, BREAKEVEN_TOLERANCE]

/-- C8: a `SpikeRecord` is resolved at most once (a checked record is left
untouched), never before its age reaches 180 s, and at resolution against an
available positive market mid (with the spike deviation above the 1e-9 guard,
as every record created by `record_update` is), it is marked reverted exactly
when the reversion fraction is ≥ 0.50 and continued exactly when the fraction
is < 0.20. -/
theorem spike_resolution (markets : String → Option MarketState) (nowT : ℚ) (rec : SpikeRecord) :
    (rec.checked = true → check_one_reversion markets nowT rec = rec) ∧
    (nowT - rec.time < REVERSION_CHECK_SEC → check_one_reversion markets nowT rec = rec) ∧
    (∀ ms : MarketState, rec.checked = false → REVERSION_CHECK_SEC ≤ nowT - rec.time →
      markets rec.slug = some ms → 0 < ms.last_mid →
      1/1000000000 < |rec.spike_mid - rec.pre_mean| →
      (check_one_reversion markets nowT rec).checked = true ∧
      (check_one_reversion markets nowT rec).check_mid = ms.last_mid ∧
      (check_one_reversion markets nowT rec).reverted =
        decide (REVERSION_THRESHOLD ≤
          ((rec.spike_mid - rec.pre_mean) - (ms.last_mid - rec.pre_mean)) /
            (rec.spike_mid - rec.pre_mean)) ∧
      (check_one_reversion markets nowT rec).continued =
        decide (((rec.spike_mid - rec.pre_mean) - (ms.last_mid - rec.pre_mean)) /
            (rec.spike_mid - rec.pre_mean) < CONTINUATION_THRESHOLD)) := by
  refine ⟨?_, ?_, ?_⟩
  · intro h
    simp [check_one_reversion, h]
  · intro h
    by_cases hc : rec.checked = true
    · simp [check_one_reversion, hc]
    · simp [check_one_reversion, hc, h]
  · intro ms h1 h2 h3 h4 h5
    have hage : ¬(nowT - rec.time < REVERSION_CHECK_SEC) := not_lt.mpr h2
    have hmid : ¬(ms.last_mid ≤ 0) := not_le.mpr h4
    have h5i : (1000000000:ℚ)⁻¹ < |rec.spike_mid - rec.pre_mean| := by
      rw [← one_div]; exact h5
    have hdev : ¬(|rec.spike_mid - rec.pre_mean| < (1000000000:ℚ)⁻¹) :=
      not_lt.mpr (le_of_lt h5i)
    simp [check_one_reversion, h1, hage, h3, hmid, hdev, h5i]

/-- C8 witness: the theorem applied to a spike from mean 0.40 to 0.60 checked
180+ s later at mid 0.50 — a reversion fraction of exactly 0.50, which counts
as reverted and not continued. -/
theorem spike_resolution_witness :
    spikeEx.checked = false ∧
    REVERSION_CHECK_SEC ≤ 200 - spikeEx.time ∧
    marketsEx spikeEx.slug = some { last_mid := 1/2 } ∧
    (0:ℚ) < (1:ℚ)/2 ∧
    ((spikeEx.spike_mid - spikeEx.pre_mean) - ((1:ℚ)/2 - spikeEx.pre_mean)) /
        (spikeEx.spike_mid - spikeEx.pre_mean) = 1/2 ∧
    (check_one_reversion marketsEx 200 spikeEx).checked = true ∧
    (check_one_reversion marketsEx 200 spikeEx).reverted = true ∧
    (check_one_reversion marketsEx 200 spikeEx).continued = false := by
  have h1 : spikeEx.checked = false := rfl
  have h2 : REVERSION_CHECK_SEC ≤ 200 - spikeEx.time := by
    norm_num [REVERSION_CHECK_SEC, spikeEx]
  have h3 : marketsEx spikeEx.slug = some { last_mid := 1/2 } := rfl
  have h4 : (0:ℚ) < ({ last_mid := 1/2 } : MarketState).last_mid := by norm_num
  have h5 : (1:ℚ)/1000000000 < |spikeEx.spike_mid - spikeEx.pre_mean| := by
    rw [show spikeEx.spike_mid - spikeEx.pre_mean = 1/5 from by norm_num [spikeEx]]
    rw [abs_of_pos (show (0:ℚ) < 1/5 by norm_num)]
    norm_num
  obtain ⟨hc, hm, hr, hk⟩ := (spike_resolution marketsEx 200 spikeEx).2.2 _ h1 h2 h3 h4 h5
  refine ⟨h1, h2, h3, by norm_num, by norm_num [spikeEx], hc, ?_, ?_⟩
  · rw [hr]
    norm_num [spikeEx, REVERSION_THRESHOLD]
  · rw [hk]
    norm_num [spikeEx, CONTINUATION_THRESHOLD]

/-- C5 (amended): monitor.py's `trade_hint` emits the FADE hint exactly when
2.0 ≤ |z| ≤ 6.0 (closed at the top) and spread ≤ 0.20 — mid and liquidity are
gated separately — so a tick with |z| exactly 6.0 DOES produce the FADE hint;
in the scanner's eligibility the FADE band is 3.5 ≤ |z| < 6.0 (open at the
top), so |z| = 6.0 is rejected for FADE there while TREND (|z| ≥ 3.5) accepts
it. -/
theorem trade_hint_fade_range :
    (∀ az s vol : ℝ, (trade_hint az (some s) vol).1 = "FADE" ↔
       ((FADE_Z_MIN ≤ az ∧ az ≤ FADE_Z_MAX) ∧ s ≤ SPREAD_MAX_SAFE)) ∧
    (∀ mid sp : ℚ, scanner_is_fade 6 mid sp = false) ∧
    (∀ mid sp : ℚ, MIN_MID ≤ mid → mid ≤ MAX_MID → sp < MAX_SPREAD_TREND →
       scanner_is_trend 6 mid sp = true) := by
  refine ⟨?_, ?_, ?_⟩
  · intro az s vol
    by_cases h1 : (FADE_Z_MIN ≤ az ∧ az ≤ FADE_Z_MAX) ∧ s ≤ SPREAD_MAX_SAFE
    · simp [trade_hint, h1]
    · by_cases h2 : TREND_Z_MIN ≤ az ∧ s ≤ SPREAD_MAX_TREND
      · simp [trade_hint, h1, h2]
      · simp [trade_hint, h1, h2]
  · intro mid sp
    simp only [scanner_is_fade, decide_eq_false_iff_not]
    intro hcon
    exact absurd hcon.1.2 (by norm_num [Z_MAX_FADE])
  · intro mid sp hm1 hm2 hsp
    simp only [scanner_is_trend, decide_eq_true_eq]
    exact ⟨by norm_num [Z_MIN_TREND], ⟨hm1, hm2⟩, hsp⟩

/-- C5 witness: the scanner TREND clause applied at mid 0.25, spread 0.01. -/
theorem trade_hint_fade_range_witness :
    MIN_MID ≤ (1:ℚ)/4 ∧ (1:ℚ)/4 ≤ MAX_MID ∧ (1:ℚ)/100 < MAX_SPREAD_TREND ∧
    scanner_is_trend 6 (1/4) (1/100) = true :=
  ⟨by norm_num [MIN_MID], by norm_num [MAX_MID], by norm_num [MAX_SPREAD_TREND],
   trade_hint_fade_range.2.2 (1/4) (1/100) (by norm_num [MIN_MID])
     (by norm_num [MAX_MID]) (by norm_num [MAX_SPREAD_TREND])⟩

/-- C5 counterexample: at |z| exactly 6.0 (and even at |z| = 2.5 < 3.5) the
monitor's `trade_hint` DOES produce the FADE hint, refuting both the claimed
3.5 lower bound and the claimed open upper bound of the FADE interval. -/
theorem trade_hint_z6_cex :
    (trade_hint (6:ℝ) (some (1/100)) 100).1 = "FADE" ∧
    (trade_hint ((5:ℝ)/2) (some (1/100)) 100).1 = "FADE" := by
  constructor <;>
    norm_num [trade_hint, FADE_Z_MIN, FADE_Z_MAX, SPREAD_MAX_SAFE]

/-- C10: a BBO update for a slug absent from the discovered-market catalog
(`STATE.meta`) returns without modifying anything: the whole monitor state —
in particular the mid cache, mid history, spread cache, global delta series
and both signal CSVs — is unchanged and no signal row is emitted. -/
theorem unknown_slug_frame (st : MonitorState) (slug : String) (bb ba : Option ℝ)
    (mstate : String) (sh oiv : Option ℝ) (nowT : ℝ) (phase : String)
    (h : st.meta slug = none) :
    processBBOUpdate st slug bb ba mstate sh oiv nowT phase = st ∧
    (processBBOUpdate st slug bb ba mstate sh oiv nowT phase).mid_cache = st.mid_cache ∧
    (processBBOUpdate st slug bb ba mstate sh oiv nowT phase).hist = st.hist ∧
    (processBBOUpdate st slug bb ba mstate sh oiv nowT phase).spread_cache = st.spread_cache ∧
    (processBBOUpdate st slug bb ba mstate sh oiv nowT phase).global_deltas = st.global_deltas ∧
    (processBBOUpdate st slug bb ba mstate sh oiv nowT phase).triggers_rows = st.triggers_rows ∧
    (processBBOUpdate st slug bb ba mstate sh oiv nowT phase).outlier_rows = st.outlier_rows ∧
    (processBBOUpdate st slug bb ba mstate sh oiv nowT phase).recent_signals = st.recent_signals := by
  have he : processBBOUpdate st slug bb ba mstate sh oiv nowT phase = st := by
    unfold processBBOUpdate
    rw [h]
  exact ⟨he, by rw [he], by rw [he], by rw [he], by rw [he], by rw [he], by rw [he], by rw [he]⟩

/-- C10 witness: the theorem applied to the empty catalog. -/
theorem unknown_slug_frame_witness :
    emptyMonitorState.meta "foo" = none ∧
    processBBOUpdate emptyMonitorState "foo" (some (2/5)) (some (41/100)) "" none none 0 "" =
      emptyMonitorState :=
  ⟨rfl, (unknown_slug_frame emptyMonitorState "foo" (some (2/5)) (some (41/100)) "" none none 0 ""
     rfl).1⟩

/-! ### Rounding and percentile helper lemmas -/

lemma countP_replicate {α : Type} (p : α → Bool) (n : ℕ) (x : α) :
    (List.replicate n x).countP p = if p x then n else 0 := by
  induction n with
  | zero => simp
  | succ k ih =>
    rw [List.replicate_succ, List.countP_cons, ih]
    by_cases h : p x <;> simp [h]

/-- Round-half-to-even never rounds up by more than one half. -/
lemma roundHalfEven_le (q : ℝ) : (roundHalfEven q : ℝ) ≤ q + 1/2 := by
  have hfl : (⌊q⌋ : ℝ) ≤ q := Int.floor_le q
  unfold roundHalfEven
  split_ifs with h1 h2 h3
  · exact le_trans hfl (by linarith)
  · push_cast
    linarith
  · exact le_trans hfl (by linarith)
  · push_cast
    push_neg at h1 h2
    linarith

/-- Python's `round(q, 2)` never exceeds `q + 0.005`. -/
lemma pyRound2_le (q : ℝ) : pyRound2 q ≤ q + 1/200 := by
  unfold pyRound2
  have h := roundHalfEven_le (q * 100)
  linarith

/-- C6: whenever the percentile gate of `process_bbo_update` passes a tick —
with the global delta series at its 2000-sample cap or below — then: with at
least 20 global samples the exact rank-percentile of the tick's |Δmid| within
the series is ≥ 50, and with fewer than 20 samples the tick passed only
because |z| ≥ adaptive threshold + 0.1. -/
theorem percentile_gate_sound (absDelta z az : ℝ) (deltas : List ℝ)
    (hcap : deltas.length ≤ 2000)
    (hpass : (percentile_gate absDelta z az deltas).1 = true) :
    (WARMUP_GLOBAL_MIN ≤ deltas.length →
      TOP_PERCENTILE ≤
        100 * ((deltas.countP (fun x => decide (x ≤ absDelta)) : ℕ) : ℝ) / deltas.length) ∧
    (deltas.length < WARMUP_GLOBAL_MIN → az + WARMUP_Z_EXTRA ≤ |z|) := by
  unfold percentile_gate at hpass
  by_cases hlen : deltas.length < WARMUP_GLOBAL_MIN
  · rw [if_pos hlen] at hpass
    by_cases hz : |z| < az + WARMUP_Z_EXTRA
    · rw [if_pos hz] at hpass
      exact absurd hpass (by simp)
    · exact ⟨fun hc => absurd hlen (not_lt.mpr hc), fun _ => le_of_not_lt hz⟩
  · rw [if_neg hlen] at hpass
    by_cases hp : percentile absDelta deltas < TOP_PERCENTILE
    · rw [if_pos hp] at hpass
      exact absurd hpass (by simp)
    · push_neg at hlen hp
      refine ⟨fun _ => ?_, fun hc => absurd hc (not_lt.mpr hlen)⟩
      by_cases h50 : deltas.length < 50
      · have hzero : percentile absDelta deltas = 0 := by
          rw [percentile, if_pos h50]
        rw [hzero] at hp
        norm_num [TOP_PERCENTILE] at hp
      · push_neg at h50
        have hperm := List.Perm.countP_eq (fun x => decide (x ≤ absDelta))
          (List.mergeSort_perm deltas (fun a b => decide (a ≤ b)))
        have hperc : percentile absDelta deltas =
            pyRound2 (100 * ((deltas.countP (fun x => decide (x ≤ absDelta)) : ℕ) : ℝ) /
              deltas.length) := by
          rw [percentile, if_neg (not_lt.mpr h50), hperm]
        rw [hperc] at hp
        set c := deltas.countP (fun x => decide (x ≤ absDelta)) with hcdef
        set n := deltas.length with hndef
        have hn0 : (0:ℝ) < (n:ℝ) := by
          have : (50:ℝ) ≤ (n:ℝ) := by exact_mod_cast h50
          linarith
    
        have hv : (9999:ℝ)/200 ≤ 100 * (c:ℝ) / n := by
          have hb := pyRound2_le (100 * (c:ℝ) / n)
          have hp50 : (50:ℝ) ≤ pyRound2 (100 * (c:ℝ) / n) := by
            simpa [TOP_PERCENTILE] using hp
          linarith
        rw [TOP_PERCENTILE]
        by_contra hcon
        push_neg at hcon
        have hlt : 100 * (c:ℝ) < 50 * n := by
          rw [div_lt_iff hn0] at hcon
          linarith
        have h2c : 2 * c + 1 ≤ n := by
          have : (2 * c : ℕ) < n := by
            have hcast : ((2 * c : ℕ) : ℝ) < (n:ℝ) := by push_cast; linarith
            exact_mod_cast hcast
          omega
        have hub : 100 * (c:ℝ) ≤ 50 * n - 50 := by
          have hcast : ((2 * c + 1 : ℕ) : ℝ) ≤ (n:ℝ) := by exact_mod_cast h2c
          push_cast at hcast
          linarith
        have hle : 100 * (c:ℝ) / n ≤ 50 - 50 / n := by
          rw [div_le_iff hn0]
          have : (50 - 50 / (n:ℝ)) * n = 50 * n - 50 := by
            field_simp
          linarith [this.ge, this.le, hub]
        have h50n : (1:ℝ)/40 ≤ 50 / n := by
          have hn2000 : (n:ℝ) ≤ 2000 := by exact_mod_cast hcap
          calc (1:ℝ)/40 = 50 / 2000 := by norm_num
          _ ≤ 50 / n := by
              apply div_le_div_of_nonneg_left (by norm_num) hn0 hn2000
        linarith

/-- Evaluation of the gate on 50 equal deltas: the current delta ranks at the
100th percentile and the gate passes. -/
lemma gate_witness_eval :
    (percentile_gate (1/1000) 0 0 (List.replicate 50 ((1:ℝ)/1000))).1 = true := by
  have hcount : (List.replicate 50 ((1:ℝ)/1000)).countP (fun x => decide (x ≤ 1/1000)) = 50 := by
    rw [countP_replicate]
    norm_num
  have hperm := List.Perm.countP_eq (fun x => decide (x ≤ (1:ℝ)/1000))
    (List.mergeSort_perm (List.replicate 50 ((1:ℝ)/1000)) (fun a b => decide (a ≤ b)))
  have hP : percentile (1/1000) (List.replicate 50 ((1:ℝ)/1000)) = 100 := by
    rw [percentile, if_neg (by simp), hperm, hcount]
    have : 100 * ((50:ℕ):ℝ) / (List.replicate 50 ((1:ℝ)/1000)).length = 100 := by
      simp
    rw [this]
    rw [pyRound2, roundHalfEven]
    have hfl : ⌊(100:ℝ) * 100⌋ = 10000 := by
      rw [show (100:ℝ) * 100 = ((10000:ℤ):ℝ) by norm_num]
      exact Int.floor_intCast 10000
    rw [hfl]
    norm_num
  rw [percentile_gate]
  rw [if_neg (by simp [WARMUP_GLOBAL_MIN])]
  rw [hP]
  rw [if_neg (by norm_num [TOP_PERCENTILE])]

/-- C6 witness: the theorem applied to a 50-sample delta series of equal
values. -/
theorem percentile_gate_sound_witness :
    (List.replicate 50 ((1:ℝ)/1000)).length ≤ 2000 ∧
    (percentile_gate (1/1000) 0 0 (List.replicate 50 ((1:ℝ)/1000))).1 = true ∧
    (WARMUP_GLOBAL_MIN ≤ (List.replicate 50 ((1:ℝ)/1000)).length →
      TOP_PERCENTILE ≤
        100 * (((List.replicate 50 ((1:ℝ)/1000)).countP
          (fun x => decide (x ≤ 1/1000)) : ℕ) : ℝ) / (List.replicate 50 ((1:ℝ)/1000)).length) :=
  ⟨by simp, gate_witness_eval,
   (percentile_gate_sound (1/1000) 0 0 (List.replicate 50 ((1:ℝ)/1000)) (by simp)
      gate_witness_eval).1⟩

/-! ### Variance helper lemmas for `adaptive_z` -/

lemma pvariance_nonneg (l : List ℝ) : 0 ≤ pvariance l := by
  unfold pvariance
  apply div_nonneg
  · apply List.sum_nonneg
    intro q hq
    simp only [List.mem_map] at hq
    obtain ⟨x, _, rfl⟩ := hq
    positivity
  · positivity

lemma recent50_length {ds : List ℝ} (h : 50 ≤ ds.length) : (recent50 ds).length = 50 := by
  simp only [recent50, List.length_drop]
  omega

/-- C7 (amended): `adaptive_z` returns the 0.8 baseline below 50 samples; with
50 to 100 samples the denominator of the ratio is the constant 1.0 — NOT the
stddev of the whole series — so the branch comparisons reduce to the recent
variance against 1.69 and 0.49; only above 100 samples is the ratio
stddev(last 50)/stddev(all) used (equivalently, variances against
1.69·var(all) and 0.49·var(all)); and a zero stddev of the whole series falls
back to 0.8. -/
theorem adaptive_z_characterization (ds : List ℝ) :
    (ds.length < 50 → adaptive_z ds = BASE_Z_SCORE_MIN) ∧
    (50 ≤ ds.length → ds.length ≤ 100 →
      adaptive_z ds =
        if 169/100 < pvariance (recent50 ds) then 11/10
        else if pvariance (recent50 ds) < 49/100 then 5/4
        else 4/5) ∧
    (100 < ds.length → 0 < pvariance ds →
      adaptive_z ds =
        if 169/100 * pvariance ds < pvariance (recent50 ds) then 11/10
        else if pvariance (recent50 ds) < 49/100 * pvariance ds then 5/4
        else 4/5) ∧
    (100 < ds.length → pvariance ds = 0 → adaptive_z ds = BASE_Z_SCORE_MIN) := by
  refine ⟨?_, ?_, ?_, ?_⟩
  · intro h
    simp only [adaptive_z]
    rw [if_pos h]
  · intro h1 h2
    simp only [adaptive_z, pstdev]
    rw [if_neg (not_lt.mpr h1), if_neg (not_lt.mpr h2), if_neg one_ne_zero,
      recent50_length h1, if_pos (by norm_num : (2:ℕ) ≤ 50), div_one]
    refine if_congr ?_ ?_ (if_congr ?_ ?_ ?_)
    · rw [Real.lt_sqrt (by norm_num : (0:ℝ) ≤ 13/10)]
      norm_num
    · norm_num [BASE_Z_SCORE_MIN]
    · rw [Real.sqrt_lt' (by norm_num : (0:ℝ) < 7/10)]
      norm_num
    · norm_num [BASE_Z_SCORE_MIN]
    · norm_num [BASE_Z_SCORE_MIN]
  · intro h1 h2
    have h1' : ¬(ds.length < 50) := by omega
    have hbpos : 0 < Real.sqrt (pvariance ds) := Real.sqrt_pos.mpr h2
    simp only [adaptive_z, pstdev]
    rw [if_neg h1', if_pos h1, if_neg (ne_of_gt hbpos),
      recent50_length (by omega), if_pos (by norm_num : (2:ℕ) ≤ 50)]
    refine if_congr ?_ ?_ (if_congr ?_ ?_ ?_)
    · rw [lt_div_iff hbpos]
      rw [Real.lt_sqrt (by positivity : (0:ℝ) ≤ 13/10 * Real.sqrt (pvariance ds))]
      rw [mul_pow, Real.sq_sqrt (le_of_lt h2)]
      rw [show ((13:ℝ)/10)^2 = 169/100 from by norm_num]
    · norm_num [BASE_Z_SCORE_MIN]
    · rw [div_lt_iff hbpos]
      rw [Real.sqrt_lt' (by positivity : (0:ℝ) < 7/10 * Real.sqrt (pvariance ds))]
      rw [mul_pow, Real.sq_sqrt (le_of_lt h2)]
      rw [show ((7:ℝ)/10)^2 = 49/100 from by norm_num]
    · norm_num [BASE_Z_SCORE_MIN]
    · norm_num [BASE_Z_SCORE_MIN]
  · intro h1 h2
    have h1' : ¬(ds.length < 50) := by omega
    simp only [adaptive_z, pstdev]
    rw [if_neg h1', if_pos h1, h2, Real.sqrt_zero, if_pos rfl]

/-! ### Concrete evaluation of `adaptive_z` on the 60-sample series -/

lemma dsC7_len : dsC7.length = 60 := by
  simp [dsC7]

lemma dsC7_recent : recent50 dsC7 = List.replicate 25 (0:ℝ) ++ List.replicate 25 2 := by
  unfold recent50
  rw [dsC7_len]
  rw [dsC7]
  rw [show (60 - 50 : ℕ) = (List.replicate 10 (14:ℝ)).length from by simp]
  exact List.drop_left _ _

lemma dsC7_vr : pvariance (recent50 dsC7) = 1 := by
  rw [dsC7_recent]
  unfold pvariance pymean
  simp only [List.map_append, List.map_replicate, List.sum_append, List.sum_replicate,
    List.length_append, List.length_replicate, nsmul_eq_mul]
  norm_num

lemma dsC7_va : pvariance dsC7 = 875/36 := by
  rw [dsC7]
  unfold pvariance pymean
  simp only [List.map_append, List.map_replicate, List.sum_append, List.sum_replicate,
    List.length_append, List.length_replicate, nsmul_eq_mul]
  norm_num

/-- C7 witness: the characterization applied to the 60-sample series. -/
theorem adaptive_z_characterization_witness :
    50 ≤ dsC7.length ∧ dsC7.length ≤ 100 ∧
    adaptive_z dsC7 =
      (if 169/100 < pvariance (recent50 dsC7) then 11/10
       else if pvariance (recent50 dsC7) < 49/100 then 5/4
       else 4/5) :=
  ⟨by rw [dsC7_len]; norm_num, by rw [dsC7_len]; norm_num,
   (adaptive_z_characterization dsC7).2.1 (by rw [dsC7_len]; norm_num)
     (by rw [dsC7_len]; norm_num)⟩

/-- C7 counterexample: a 60-sample series whose stddev ratio
stddev(last 50)/stddev(all) is below 0.7, yet `adaptive_z` returns 0.8 instead
of the claimed 0.8 + 0.45 — because with ≤ 100 samples the code divides by the
constant 1.0, not by stddev(all). -/
theorem adaptive_z_baseline_cex :
    pstdev (recent50 dsC7) / pstdev dsC7 < 7/10 ∧
    adaptive_z dsC7 = 4/5 ∧
    (4:ℝ)/5 ≠ BASE_Z_SCORE_MIN + 45/100 := by
  have hsr : pstdev (recent50 dsC7) = 1 := by
    rw [pstdev, dsC7_vr, Real.sqrt_one]
  have hsa : (10:ℝ)/7 < pstdev dsC7 := by
    rw [pstdev, Real.lt_sqrt (by norm_num : (0:ℝ) ≤ 10/7), dsC7_va]
    norm_num
  have hsa0 : (0:ℝ) < pstdev dsC7 := lt_trans (by norm_num) hsa
  refine ⟨?_, ?_, by norm_num [BASE_Z_SCORE_MIN]⟩
  · rw [hsr, div_lt_iff hsa0]
    linarith
  · simp only [adaptive_z, pstdev]
    rw [dsC7_len]
    rw [if_neg (by norm_num : ¬(60 < 50)), if_neg (by norm_num : ¬(100 < 60)),
      if_neg one_ne_zero]
    rw [show (recent50 dsC7).length = 50 from recent50_length (by rw [dsC7_len]; norm_num)]
    rw [if_pos (by norm_num : (2:ℕ) ≤ 50), div_one, dsC7_vr, Real.sqrt_one]
    rw [if_neg (by norm_num : ¬((13:ℝ)/10 < 1)), if_neg (by norm_num : ¬((1:ℝ) < 7/10))]
    norm_num [BASE_Z_SCORE_MIN]

end PMUS
